import Mathlib

/-!
Verification development for the extractous-go C FFI surface.

The repository ships three public C headers (`extractous.h`,
`include/extractous.h`, `ffi/include/extractous.h`) together with tests and
examples; the implementation behind the declared functions lives outside the
repository sources.  This file embeds, first, the declared constants and
mutator signatures of the three headers (transcribed from the headers
themselves), and second, an executable model of the runtime behaviour the
design document specifies for the extraction entry points, the configuration
setters, the content-stream reader and the error-message table.
-/

set_option autoImplicit false

/-! ## Error, charset and OCR-strategy constants (shared values) -/

/-- Success code, `ERR_OK` in every header. -/
def ERR_OK : Int := 0

/-- `ERR_NULL_POINTER` in every header. -/
def ERR_NULL_POINTER : Int := -1

/-- `ERR_INVALID_UTF8` in every header. -/
def ERR_INVALID_UTF8 : Int := -2

/-- `ERR_INVALID_STRING` in every header. -/
def ERR_INVALID_STRING : Int := -3

/-- `ERR_EXTRACTION_FAILED` in every header. -/
def ERR_EXTRACTION_FAILED : Int := -4

/-- `ERR_IO_ERROR` in every header. -/
def ERR_IO_ERROR : Int := -5

/-- `ERR_INVALID_CONFIG` in every header. -/
def ERR_INVALID_CONFIG : Int := -6

/-- `ERR_INVALID_ENUM` in every header. -/
def ERR_INVALID_ENUM : Int := -7

/-- `ERR_UNSUPPORTED_FORMAT` (root and ffi headers). -/
def ERR_UNSUPPORTED_FORMAT : Int := -8

/-- `ERR_OUT_OF_MEMORY` (root and ffi headers). -/
def ERR_OUT_OF_MEMORY : Int := -9

/-- `ERR_OCR_FAILED` (root and ffi headers). -/
def ERR_OCR_FAILED : Int := -10

/-- `CHARSET_UTF_8`, value 0 in every header. -/
def CHARSET_UTF_8 : Int := 0

/-- `CHARSET_US_ASCII`, value 1 in every header. -/
def CHARSET_US_ASCII : Int := 1

/-- `CHARSET_UTF_16BE` as defined by `include/extractous.h` and
`ffi/include/extractous.h` (value 2).  The root header `extractous.h` defines
the same name as 3; that discrepancy is recorded in the header tables below. -/
def CHARSET_UTF_16BE : Int := 2

/-- `PDF_OCR_NO_OCR` (named `PDF_OCR_STRATEGY_NO_OCR` in the root header). -/
def PDF_OCR_NO_OCR : Int := 0

/-- `PDF_OCR_OCR_ONLY`. -/
def PDF_OCR_OCR_ONLY : Int := 1

/-- `PDF_OCR_OCR_AND_TEXT_EXTRACTION`. -/
def PDF_OCR_OCR_AND_TEXT_EXTRACTION : Int := 2

/-- `PDF_OCR_AUTO`. -/
def PDF_OCR_AUTO : Int := 3

/-- `DEFAULT_STRING_MAX_LENGTH` from `ffi/include/extractous.h`: 100 MiB. -/
def DEFAULT_STRING_MAX_LENGTH : Nat := 104857600

/-! ## Header inventories

Transcriptions of the `#define`/`constexpr` constants of each of the three
public headers, used to compare the headers against one another. -/

/-- One named numeric constant as declared by a header. -/
structure ConstDef where
  name : String
  value : Int
deriving DecidableEq, Repr

/-- Constants of `src/extractous.h` (the root header). -/
def rootHeaderConsts : List ConstDef :=
  [⟨"ERR_OK", 0⟩, ⟨"ERR_NULL_POINTER", -1⟩, ⟨"ERR_INVALID_UTF8", -2⟩,
   ⟨"ERR_INVALID_STRING", -3⟩, ⟨"ERR_EXTRACTION_FAILED", -4⟩,
   ⟨"ERR_IO_ERROR", -5⟩, ⟨"ERR_INVALID_CONFIG", -6⟩, ⟨"ERR_INVALID_ENUM", -7⟩,
   ⟨"ERR_UNSUPPORTED_FORMAT", -8⟩, ⟨"ERR_OUT_OF_MEMORY", -9⟩,
   ⟨"ERR_OCR_FAILED", -10⟩,
   ⟨"CHARSET_UTF_8", 0⟩, ⟨"CHARSET_US_ASCII", 1⟩, ⟨"CHARSET_UTF_16BE", 3⟩,
   ⟨"PDF_OCR_STRATEGY_NO_OCR", 0⟩, ⟨"PDF_OCR_STRATEGY_OCR_ONLY", 1⟩,
   ⟨"PDF_OCR_STRATEGY_OCR_AND_TEXT_EXTRACTION", 2⟩,
   ⟨"PDF_OCR_STRATEGY_AUTO", 3⟩]

/-- Constants of `src/include/extractous.h`. -/
def includeHeaderConsts : List ConstDef :=
  [⟨"ERR_OK", 0⟩, ⟨"ERR_NULL_POINTER", -1⟩, ⟨"ERR_INVALID_UTF8", -2⟩,
   ⟨"ERR_INVALID_STRING", -3⟩, ⟨"ERR_EXTRACTION_FAILED", -4⟩,
   ⟨"ERR_IO_ERROR", -5⟩, ⟨"ERR_INVALID_CONFIG", -6⟩, ⟨"ERR_INVALID_ENUM", -7⟩,
   ⟨"CHARSET_UTF_8", 0⟩, ⟨"CHARSET_US_ASCII", 1⟩, ⟨"CHARSET_UTF_16BE", 2⟩,
   ⟨"PDF_OCR_NO_OCR", 0⟩, ⟨"PDF_OCR_OCR_ONLY", 1⟩,
   ⟨"PDF_OCR_OCR_AND_TEXT_EXTRACTION", 2⟩, ⟨"PDF_OCR_AUTO", 3⟩]

/-- Constants of `src/ffi/include/extractous.h`. -/
def ffiHeaderConsts : List ConstDef :=
  [⟨"ERR_OK", 0⟩, ⟨"ERR_NULL_POINTER", -1⟩, ⟨"ERR_INVALID_UTF8", -2⟩,
   ⟨"ERR_INVALID_STRING", -3⟩, ⟨"ERR_EXTRACTION_FAILED", -4⟩,
   ⟨"ERR_IO_ERROR", -5⟩, ⟨"ERR_INVALID_CONFIG", -6⟩, ⟨"ERR_INVALID_ENUM", -7⟩,
   ⟨"ERR_UNSUPPORTED_FORMAT", -8⟩, ⟨"ERR_OUT_OF_MEMORY", -9⟩,
   ⟨"ERR_OCR_FAILED", -10⟩,
   ⟨"CHARSET_UTF_8", 0⟩, ⟨"CHARSET_US_ASCII", 1⟩, ⟨"CHARSET_UTF_16BE", 2⟩,
   ⟨"PDF_OCR_NO_OCR", 0⟩, ⟨"PDF_OCR_OCR_ONLY", 1⟩,
   ⟨"PDF_OCR_OCR_AND_TEXT_EXTRACTION", 2⟩, ⟨"PDF_OCR_AUTO", 3⟩,
   ⟨"DEFAULT_BUFFER_SIZE", 4096⟩, ⟨"MAX_BUFFER_SIZE", 1048576⟩,
   ⟨"DEFAULT_STRING_MAX_LENGTH", 104857600⟩]

/-- Value a header assigns to a constant name, when the header defines it. -/
def constValue (header : List ConstDef) (n : String) : Option Int :=
  (header.find? (fun c => c.name = n)).map (fun c => c.value)

/-- Two headers agree on every constant name they both define. -/
def headersAgree (h1 h2 : List ConstDef) : Prop :=
  ∀ n v1 v2, constValue h1 n = some v1 → constValue h2 n = some v2 → v1 = v2

/-! ## Mutator signature inventories

Return-type shapes of the fourteen configuration mutators (five PDF, four
Office, five OCR setters) as declared by each header.  The root header
declares each of them `void`, documented "Modifies the config in-place"; the
other two headers declare the same function names as returning a fresh
configuration handle. -/

/-- Return shape of a declared configuration mutator. -/
inductive CRetKind where
  | voidRet
  | newHandleRet
deriving DecidableEq, Repr

/-- One configuration-mutator declaration in a header. -/
structure MutatorDecl where
  name : String
  ret : CRetKind
deriving DecidableEq, Repr

/-- The fourteen configuration-mutator names shared by all three headers. -/
def configMutatorNames : List String :=
  ["extractous_pdf_config_set_ocr_strategy",
   "extractous_pdf_config_set_extract_inline_images",
   "extractous_pdf_config_set_extract_unique_inline_images_only",
   "extractous_pdf_config_set_extract_marked_content",
   "extractous_pdf_config_set_extract_annotation_text",
   "extractous_office_config_set_extract_macros",
   "extractous_office_config_set_include_deleted_content",
   "extractous_office_config_set_include_move_from_content",
   "extractous_office_config_set_include_shape_based_content",
   "extractous_ocr_config_set_language",
   "extractous_ocr_config_set_density",
   "extractous_ocr_config_set_depth",
   "extractous_ocr_config_set_enable_image_preprocessing",
   "extractous_ocr_config_set_timeout_seconds"]

/-- Configuration mutators of `src/extractous.h`: all declared `void`. -/
def rootHeaderConfigMutators : List MutatorDecl :=
  configMutatorNames.map (fun n => ⟨n, CRetKind.voidRet⟩)

/-- Configuration mutators of `src/include/extractous.h`: all return a new
configuration handle. -/
def includeHeaderConfigMutators : List MutatorDecl :=
  configMutatorNames.map (fun n => ⟨n, CRetKind.newHandleRet⟩)

/-- Configuration mutators of `src/ffi/include/extractous.h`: all return a
new configuration handle. -/
def ffiHeaderConfigMutators : List MutatorDecl :=
  configMutatorNames.map (fun n => ⟨n, CRetKind.newHandleRet⟩)

/-- Return shape a header declares for a mutator name. -/
def mutatorRet (header : List MutatorDecl) (n : String) : Option CRetKind :=
  (header.find? (fun m => m.name = n)).map (fun m => m.ret)

/-!  Claim theorems about the header inventories. -/

/-- Claim C1 (code bug exhibit): the claim says every configuration mutator
returns a new configuration handle and that no public mutator updates the
configuration in place with a void return.  The root header
`src/extractous.h` declares `extractous_pdf_config_set_ocr_strategy` — and in
fact all fourteen configuration mutators — with a `void` return ("Modifies
the config in-place"), while the two other public headers declare the same
names as returning a new handle, which is also how the tests and the smoke
example of the repository call them. -/
theorem root_header_declares_void_config_mutators :
    mutatorRet rootHeaderConfigMutators "extractous_pdf_config_set_ocr_strategy" =
      some CRetKind.voidRet ∧
    mutatorRet includeHeaderConfigMutators "extractous_pdf_config_set_ocr_strategy" =
      some CRetKind.newHandleRet ∧
    mutatorRet ffiHeaderConfigMutators "extractous_pdf_config_set_ocr_strategy" =
      some CRetKind.newHandleRet ∧
    rootHeaderConfigMutators.all (fun m => m.ret = CRetKind.voidRet) = true := by
  refine ⟨rfl, rfl, rfl, rfl⟩

/-- Claim C2 (code bug exhibit): the claim says every constant name shared by
the three public headers has the same numeric value in each, in particular
the UTF-16BE charset constant.  In fact `src/extractous.h` defines
`CHARSET_UTF_16BE` as 3 while `src/include/extractous.h` and
`src/ffi/include/extractous.h` both define it as 2. -/
theorem charset_utf16be_value_disagrees_across_headers :
    constValue rootHeaderConsts "CHARSET_UTF_16BE" = some 3 ∧
    constValue includeHeaderConsts "CHARSET_UTF_16BE" = some 2 ∧
    constValue ffiHeaderConsts "CHARSET_UTF_16BE" = some 2 ∧
    ¬ headersAgree rootHeaderConsts includeHeaderConsts := by
  refine ⟨rfl, rfl, rfl, fun h => ?_⟩
  have := h "CHARSET_UTF_16BE" 3 2 rfl rfl
  exact absurd this (by decide)

/-! ## Runtime model

Modelled from the spec: the implementation behind the declared FFI functions
is not part of the repository sources (only headers, tests and examples
are), so the runtime behaviour below is modelled from the design document:
configuration builders (spec section 4.1), the extractor and its six
extraction entry points (sections 4.2, 6 and 7), the content-stream reader
(section 4.3) and the error-message surface (section 4.5).  Extracted
content is modelled as its encoded byte sequence (`List Nat`). -/

/-- PDF parser configuration (spec section 3).  The OCR strategy is stored as
the validated `PDF_OCR_*` integer. -/
structure CPdfParserConfig where
  ocrStrategy : Int
  extractInlineImages : Bool
  extractUniqueInlineImagesOnly : Bool
  extractMarkedContent : Bool
  extractAnnotTexts : Bool
deriving DecidableEq, Repr

/-- Modelled from the spec: `extractous_pdf_config_new` — defaults are no
OCR, inline images off, dedup on, marked content off, annotations off. -/
def extractous_pdf_config_new : CPdfParserConfig :=
  ⟨PDF_OCR_NO_OCR, false, true, false, false⟩

/-- The declared set of PDF OCR strategy values. -/
def pdfOcrStrategyValues : List Int :=
  [PDF_OCR_NO_OCR, PDF_OCR_OCR_ONLY, PDF_OCR_OCR_AND_TEXT_EXTRACTION, PDF_OCR_AUTO]

/-- Modelled from the spec: `extractous_pdf_config_set_ocr_strategy` —
consumes the input handle (a null handle yields an invalid result) and
returns a new handle carrying the strategy, or an invalid (null) result when
the strategy is outside the declared set. -/
def extractous_pdf_config_set_ocr_strategy
    (handle : Option CPdfParserConfig) (strategy : Int) : Option CPdfParserConfig :=
  match handle with
  | none => none
  | some c =>
    if strategy ∈ pdfOcrStrategyValues then
      some { c with ocrStrategy := strategy }
    else none

/-- Extractor configuration state (spec section 3): max output length,
target charset, output-format flag and the optional per-format configs.
Office and OCR configs are irrelevant to the claims below and carried
abstractly as attached-or-not flags. -/
structure CExtractor where
  maxLength : Nat
  encoding : Int
  xmlOutput : Bool
  pdfConfig : Option CPdfParserConfig
  officeConfigAttached : Bool
  ocrConfigAttached : Bool
deriving DecidableEq, Repr

/-- Modelled from the spec: `extractous_extractor_new` — default maximum
length of 100 MiB of decoded text, UTF-8 charset, plain-text output, no
per-format configs attached. -/
def extractous_extractor_new : CExtractor :=
  ⟨DEFAULT_STRING_MAX_LENGTH, CHARSET_UTF_8, false, none, false, false⟩

/-- The declared set of charset values. -/
def charsetValues : List Int := [CHARSET_UTF_8, CHARSET_US_ASCII, CHARSET_UTF_16BE]

/-- Modelled from the spec: `extractous_extractor_set_encoding` — consumes
the input handle and returns a new handle carrying the charset, or an
invalid (null) result when the charset is outside the declared set. -/
def extractous_extractor_set_encoding
    (handle : Option CExtractor) (encoding : Int) : Option CExtractor :=
  match handle with
  | none => none
  | some e =>
    if encoding ∈ charsetValues then
      some { e with encoding := encoding }
    else none

/-- Modelled from the spec: `extractous_extractor_set_extract_string_max_length`
— consumes the input handle and returns a new handle carrying the limit. -/
def extractous_extractor_set_extract_string_max_length
    (handle : Option CExtractor) (maxLength : Nat) : Option CExtractor :=
  match handle with
  | none => none
  | some e => some { e with maxLength := maxLength }

/-- The fixed set of error kinds of the error taxonomy (spec section 7). -/
inductive ErrKind where
  | nullPointer
  | invalidUtf8
  | invalidString
  | extractionFailed
  | ioError
  | invalidConfig
  | invalidEnum
  | unsupportedFormat
  | outOfMemory
  | ocrFailed
deriving DecidableEq, Repr

/-- The C error code carried by each error kind. -/
def errCode : ErrKind → Int
  | .nullPointer => ERR_NULL_POINTER
  | .invalidUtf8 => ERR_INVALID_UTF8
  | .invalidString => ERR_INVALID_STRING
  | .extractionFailed => ERR_EXTRACTION_FAILED
  | .ioError => ERR_IO_ERROR
  | .invalidConfig => ERR_INVALID_CONFIG
  | .invalidEnum => ERR_INVALID_ENUM
  | .unsupportedFormat => ERR_UNSUPPORTED_FORMAT
  | .outOfMemory => ERR_OUT_OF_MEMORY
  | .ocrFailed => ERR_OCR_FAILED

theorem errCode_ne_ok (k : ErrKind) : errCode k ≠ ERR_OK := by
  cases k <;> decide

/-- The C metadata structure: parallel key and value arrays with an explicit
length field. -/
structure CMetadata where
  keys : List String
  values : List String
  len : Nat
deriving DecidableEq, Repr

/-- A data-source argument of an extraction entry point: a filesystem path,
an in-memory byte buffer, or a URL.  A null C argument (null path pointer,
null data pointer, null url pointer) is modelled by passing `none` at the
`Option SourceArg` position of an entry point. -/
inductive SourceArg where
  | fromPath (path : String)
  | fromBytes (data : List Nat)
  | fromUrl (url : String)
deriving DecidableEq, Repr

/-- State machine of the content stream (spec section 4.3):
states are Open (with the bytes not yet delivered), Exhausted, Errored. -/
inductive StreamState where
  | Open (remaining : List Nat)
  | Exhausted
  | Errored
deriving DecidableEq, Repr

/-- Stream-reader handle: wraps the stream state. -/
structure CStreamReader where
  state : StreamState
deriving DecidableEq, Repr

/-- Output handle produced by an extraction entry point: a fully
materialized content string (byte sequence) or a stream reader. -/
inductive ExtractOutput where
  | strContent (bytes : List Nat)
  | streamContent (reader : CStreamReader)
deriving DecidableEq, Repr

/-- The two output modes of the extraction entry points. -/
inductive OutputMode where
  | toStringMode
  | toStreamMode
deriving DecidableEq, Repr

/-- A format backend (spec section 6): given the data source and the active
extractor configuration, produces the full decoded output bytes together
with the metadata pairs, or a typed failure from the fixed error set. -/
def Backend : Type :=
  SourceArg → CExtractor → Except ErrKind (List Nat × CMetadata)

/-- Modelled from the spec: the common control flow of the six extraction
entry points (`{path, bytes, url} × {to-string, to-stream}`).  The entry
point first rejects a null extractor handle, a null source argument and null
output pointers with the null-pointer error, producing no output; then it
invokes the backend; a backend failure is returned as its error code with no
output produced; on success the decoded output is truncated to the
configured maximum length and returned — as a string or as an Open stream
according to the mode — together with the metadata. -/
def extractous_extract (backend : Backend) (mode : OutputMode)
    (handle : Option CExtractor) (source : Option SourceArg)
    (outPtrsValid : Bool) : Int × Option ExtractOutput × Option CMetadata :=
  match handle with
  | none => (ERR_NULL_POINTER, none, none)
  | some ex =>
    match source with
    | none => (ERR_NULL_POINTER, none, none)
    | some src =>
      if outPtrsValid then
        match backend src ex with
        | .error k => (errCode k, none, none)
        | .ok (text, meta) =>
          match mode with
          | .toStringMode =>
            (ERR_OK, some (.strContent (text.take ex.maxLength)), some meta)
          | .toStreamMode =>
            (ERR_OK, some (.streamContent ⟨.Open (text.take ex.maxLength)⟩), some meta)
      else (ERR_NULL_POINTER, none, none)

/-! ## Content-stream reader model -/

/-- The stream holds no further data: Open with nothing left, or Exhausted.
An Errored stream is not "at end"; reads on it fail. -/
def streamAtEnd : StreamState → Bool
  | .Open remaining => remaining.isEmpty
  | .Exhausted => true
  | .Errored => false

/-- Bytes the stream has not yet delivered. -/
def streamRemaining : StreamState → List Nat
  | .Open remaining => remaining
  | .Exhausted => []
  | .Errored => []

/-- Modelled from the spec: `extractous_stream_read` — a single pull of at
most `capacity` bytes.  A read on an Errored stream returns the I/O error.
A read at end of stream returns success with zero bytes and leaves the
stream Exhausted; repeated reads on an Exhausted stream keep returning
success with zero bytes.  Mid-stream, the read delivers between 1 and
`capacity` bytes; `avail` models how many bytes the underlying decode
pipeline happens to have ready, making short reads possible (it is clamped
so that at least one byte is delivered, since only end of stream may yield
zero).  Returns (status, chunk delivered, new stream state); the C
`bytes_read` output is the length of the chunk. -/
def extractous_stream_read (s : StreamState) (capacity avail : Nat) :
    Int × List Nat × StreamState :=
  match s with
  | .Errored => (ERR_IO_ERROR, [], .Errored)
  | .Exhausted => (ERR_OK, [], .Exhausted)
  | .Open remaining =>
    if remaining = [] then (ERR_OK, [], .Exhausted)
    else
      (ERR_OK, remaining.take (min (min capacity (max 1 avail)) remaining.length),
       .Open (remaining.drop (min (min capacity (max 1 avail)) remaining.length)))

/-- Modelled from the spec: `extractous_stream_read_exact` — keeps calling
the single-pull read, accumulating chunks, until `count` bytes have been
collected, or the stream reaches end of stream (a short final count with
success status), or a read fails.  `avails` supplies the per-pull
availability for each underlying read. -/
def extractous_stream_read_exact (s : StreamState) (count : Nat) (avails : List Nat) :
    Int × List Nat × StreamState :=
  if hzero : count = 0 then (ERR_OK, [], s)
  else
    match hr : extractous_stream_read s count (avails.headD count) with
    | (code, chunk, s1) =>
      if code ≠ ERR_OK then (code, [], s1)
      else if hch : chunk = [] then (ERR_OK, [], s1)
      else
        match extractous_stream_read_exact s1 (count - chunk.length) avails.tail with
        | (rcode, rbytes, s2) => (rcode, chunk ++ rbytes, s2)
termination_by count
decreasing_by
  have hpos : 0 < chunk.length := List.length_pos.mpr hch
  omega

theorem stream_read_ok (s : StreamState) (capacity avail : Nat) (hs : s ≠ .Errored) :
    (extractous_stream_read s capacity avail).1 = ERR_OK := by
  cases s with
  | Errored => exact absurd rfl hs
  | Exhausted => rfl
  | Open remaining =>
    by_cases h : remaining = [] <;> simp [extractous_stream_read, h]

theorem stream_read_chunk_append (s : StreamState) (capacity avail : Nat) :
    (extractous_stream_read s capacity avail).2.1 ++
      streamRemaining (extractous_stream_read s capacity avail).2.2 = streamRemaining s := by
  cases s with
  | Errored => rfl
  | Exhausted => rfl
  | Open remaining =>
    by_cases h : remaining = []
    · simp [extractous_stream_read, h, streamRemaining]
    · simp only [extractous_stream_read, if_neg h, streamRemaining]
      exact List.take_append_drop _ remaining

theorem stream_read_not_errored (s : StreamState) (capacity avail : Nat) (hs : s ≠ .Errored) :
    (extractous_stream_read s capacity avail).2.2 ≠ .Errored := by
  cases s with
  | Errored => exact absurd rfl hs
  | Exhausted => simp [extractous_stream_read]
  | Open remaining =>
    by_cases h : remaining = [] <;> simp [extractous_stream_read, h]

theorem stream_read_exact_spec : ∀ (count : Nat) (s : StreamState) (avails : List Nat),
    s ≠ .Errored →
    (extractous_stream_read_exact s count avails).1 = ERR_OK ∧
    (extractous_stream_read_exact s count avails).2.1 = (streamRemaining s).take count ∧
    streamRemaining (extractous_stream_read_exact s count avails).2.2 =
      (streamRemaining s).drop count ∧
    (extractous_stream_read_exact s count avails).2.2 ≠ .Errored := by
  intro count
  induction count using Nat.strong_induction_on with
  | _ count ih =>
    intro s avails hs
    by_cases hzero : count = 0
    · subst hzero
      simp [extractous_stream_read_exact, hs]
    · cases s with
      | Errored => exact absurd rfl hs
      | Exhausted =>
        rw [extractous_stream_read_exact]
        simp [hzero, extractous_stream_read, streamRemaining]
      | Open rem =>
        by_cases hrem : rem = []
        · subst hrem
          rw [extractous_stream_read_exact]
          simp [hzero, extractous_stream_read, streamRemaining]
        · have hlen : 0 < rem.length := List.length_pos.mpr hrem
          rw [extractous_stream_read_exact, dif_neg hzero]
          split
          rename_i code chunk s1 hr
          simp only [extractous_stream_read, if_neg hrem] at hr
          injection hr with h1 h2
          injection h2 with h2 h3
          subst h1 h2 h3
          have hif : ¬ (ERR_OK ≠ ERR_OK) := by simp
          rw [if_neg hif]
          have hn0 : min (min count (max 1 (avails.headD count))) rem.length ≠ 0 := by omega
          have htake :
              rem.take (min (min count (max 1 (avails.headD count))) rem.length) ≠ [] := by
            rw [Ne, List.take_eq_nil_iff]
            push_neg
            exact ⟨hn0, hrem⟩
          rw [dif_neg htake]
          have hlentake :
              (rem.take (min (min count (max 1 (avails.headD count))) rem.length)).length =
                min (min count (max 1 (avails.headD count))) rem.length := by
            rw [List.length_take]
            omega
          split
          rename_i rcode rbytes s2 hrec
          rw [hlentake] at hrec
          have ihh := ih (count - min (min count (max 1 (avails.headD count))) rem.length)
            (by omega)
            (.Open (rem.drop (min (min count (max 1 (avails.headD count))) rem.length)))
            avails.tail (by simp)
          rw [hrec] at ihh
          simp only [streamRemaining] at ihh ⊢
          obtain ⟨ih1, ih2, ih3, ih4⟩ := ihh
          refine ⟨ih1, ?_, ?_, ih4⟩
          · rw [ih2, ← List.take_add]
            have hsum : min (min count (max 1 (avails.headD count))) rem.length +
                (count - min (min count (max 1 (avails.headD count))) rem.length) = count := by
              omega
            rw [hsum]
          · rw [ih3, List.drop_drop]
            have hsum : min (min count (max 1 (avails.headD count))) rem.length +
                (count - min (min count (max 1 (avails.headD count))) rem.length) = count := by
              omega
            rw [hsum]

/-- One stream-consuming call made by a caller: a best-effort read with some
capacity, or a read-exact request for an exact byte count. -/
inductive StreamOp where
  | readChunk (capacity avail : Nat)
  | readExactChunk (count : Nat) (avails : List Nat)
deriving DecidableEq, Repr

/-- Runs a sequence of read / read-exact calls against a stream, returning
the concatenation of all delivered chunks and the final stream state. -/
def runStreamOps : StreamState → List StreamOp → List Nat × StreamState
  | s, [] => ([], s)
  | s, op :: ops =>
    match op with
    | .readChunk capacity avail =>
      match extractous_stream_read s capacity avail with
      | (_, chunk, s1) =>
        match runStreamOps s1 ops with
        | (bytes, sf) => (chunk ++ bytes, sf)
    | .readExactChunk count avails =>
      match extractous_stream_read_exact s count avails with
      | (_, chunk, s1) =>
        match runStreamOps s1 ops with
        | (bytes, sf) => (chunk ++ bytes, sf)

theorem runStreamOps_chunks_append (ops : List StreamOp) : ∀ (s : StreamState),
    s ≠ .Errored →
    (runStreamOps s ops).1 ++ streamRemaining (runStreamOps s ops).2 = streamRemaining s ∧
    (runStreamOps s ops).2 ≠ .Errored := by
  induction ops with
  | nil => intro s hs; exact ⟨rfl, hs⟩
  | cons op ops ihops =>
    intro s hs
    cases op with
    | readChunk capacity avail =>
      have hread := stream_read_chunk_append s capacity avail
      have herr := stream_read_not_errored s capacity avail hs
      rcases hr : extractous_stream_read s capacity avail with ⟨code, chunk, s1⟩
      rw [hr] at hread herr
      rcases hrun : runStreamOps s1 ops with ⟨bytes, sf⟩
      have ihh := ihops s1 herr
      rw [hrun] at ihh
      simp only [runStreamOps, hr, hrun]
      refine ⟨?_, ihh.2⟩
      rw [List.append_assoc, ihh.1]
      exact hread
    | readExactChunk count avails =>
      have hspec := stream_read_exact_spec count s avails hs
      rcases hr : extractous_stream_read_exact s count avails with ⟨code, chunk, s1⟩
      rw [hr] at hspec
      rcases hrun : runStreamOps s1 ops with ⟨bytes, sf⟩
      have ihh := ihops s1 hspec.2.2.2
      rw [hrun] at ihh
      simp only [runStreamOps, hr, hrun]
      refine ⟨?_, ihh.2⟩
      rw [List.append_assoc, ihh.1]
      have h2 : chunk = (streamRemaining s).take count := hspec.2.1
      have h3 : streamRemaining s1 = (streamRemaining s).drop count := hspec.2.2.1
      rw [h2, h3]
      exact List.take_append_drop count (streamRemaining s)

/-! ## Error-message surface -/

/-- Modelled from the spec: `extractous_error_message` — a pure mapping from
an error code to a human-readable description, defined for every code of the
error taxonomy including success; the message texts follow the descriptions
the headers document for each code. -/
def extractous_error_message (code : Int) : String :=
  if code = ERR_OK then "Success - operation completed without errors"
  else if code = ERR_NULL_POINTER then "Null pointer provided as argument"
  else if code = ERR_INVALID_UTF8 then "Invalid UTF-8 string encoding"
  else if code = ERR_INVALID_STRING then "String conversion or allocation failed"
  else if code = ERR_EXTRACTION_FAILED then "Document extraction failed"
  else if code = ERR_IO_ERROR then "File system or network I/O error"
  else if code = ERR_INVALID_CONFIG then "Invalid configuration value"
  else if code = ERR_INVALID_ENUM then "Invalid enumeration value"
  else if code = ERR_UNSUPPORTED_FORMAT then "Unsupported file format"
  else if code = ERR_OUT_OF_MEMORY then "Memory allocation failed"
  else if code = ERR_OCR_FAILED then "OCR operation failed"
  else "Unknown error code"

/-- The defined error codes, success included. -/
def definedErrorCodes : List Int :=
  [ERR_OK, ERR_NULL_POINTER, ERR_INVALID_UTF8, ERR_INVALID_STRING,
   ERR_EXTRACTION_FAILED, ERR_IO_ERROR, ERR_INVALID_CONFIG, ERR_INVALID_ENUM,
   ERR_UNSUPPORTED_FORMAT, ERR_OUT_OF_MEMORY, ERR_OCR_FAILED]

/-! ## Claim theorems about the runtime model -/

/-- Claim C3: for every extraction entry point (any source kind, any output
mode, any backend behaviour): the call returns `ERR_OK` exactly when both
the output handle and the metadata handle are produced, and the two are
always produced or withheld together — there is no outcome with exactly one
of them present. -/
theorem extract_success_iff_both_outputs (backend : Backend) (mode : OutputMode)
    (handle : Option CExtractor) (source : Option SourceArg) (outPtrsValid : Bool) :
    ((extractous_extract backend mode handle source outPtrsValid).1 = ERR_OK ↔
      ((extractous_extract backend mode handle source outPtrsValid).2.1.isSome = true ∧
        (extractous_extract backend mode handle source outPtrsValid).2.2.isSome = true)) ∧
    ((extractous_extract backend mode handle source outPtrsValid).2.1.isSome = true ↔
      (extractous_extract backend mode handle source outPtrsValid).2.2.isSome = true) := by
  cases handle with
  | none => simp [extractous_extract, ERR_NULL_POINTER, ERR_OK]
  | some ex =>
    cases source with
    | none => simp [extractous_extract, ERR_NULL_POINTER, ERR_OK]
    | some src =>
      cases outPtrsValid with
      | false => simp [extractous_extract, ERR_NULL_POINTER, ERR_OK]
      | true =>
        cases hb : backend src ex with
        | error k =>
          have hk := errCode_ne_ok k
          simp [extractous_extract, hb, hk]
        | ok p =>
          obtain ⟨text, meta⟩ := p
          cases mode <;> simp [extractous_extract, hb]

/-- Claim C4: extraction to string with a configured max length `n`, on a
document whose full decoded text is longer than `n`, succeeds with `ERR_OK`
and returns content of length exactly `n`: truncation at the limit is
deterministic success, not a failure. -/
theorem extract_to_string_truncates (backend : Backend) (ex : CExtractor) (src : SourceArg)
    (text : List Nat) (meta : CMetadata)
    (hb : backend src ex = Except.ok (text, meta)) (hlong : ex.maxLength < text.length) :
    (extractous_extract backend .toStringMode (some ex) (some src) true).1 = ERR_OK ∧
    (extractous_extract backend .toStringMode (some ex) (some src) true).2.1 =
      some (.strContent (text.take ex.maxLength)) ∧
    (text.take ex.maxLength).length = ex.maxLength := by
  refine ⟨?_, ?_, ?_⟩
  · simp [extractous_extract, hb]
  · simp [extractous_extract, hb]
  · rw [List.length_take]
    omega

/-- A concrete backend for witnesses: a three-byte document. -/
def sampleBackend : Backend := fun _ _ => Except.ok ([0, 1, 2], ⟨[], [], 0⟩)

/-- A concrete extractor for witnesses: max length 2. -/
def sampleExtractor : CExtractor := ⟨2, CHARSET_UTF_8, false, none, false, false⟩

theorem extract_to_string_truncates_witness :
    sampleExtractor.maxLength < [0, 1, 2].length ∧
    ((extractous_extract sampleBackend .toStringMode (some sampleExtractor)
        (some (.fromPath "doc.txt")) true).1 = ERR_OK ∧
      (extractous_extract sampleBackend .toStringMode (some sampleExtractor)
        (some (.fromPath "doc.txt")) true).2.1 =
        some (.strContent (List.take sampleExtractor.maxLength [0, 1, 2])) ∧
      (List.take sampleExtractor.maxLength [0, 1, 2]).length = sampleExtractor.maxLength) :=
  ⟨by decide,
   extract_to_string_truncates sampleBackend sampleExtractor (.fromPath "doc.txt")
     [0, 1, 2] ⟨[], [], 0⟩ rfl (by decide)⟩

/-- Claim C5: a single-pull stream read on a non-errored stream with a
positive-capacity buffer always reports success, and delivers zero bytes
exactly when the stream holds no further data; once the end is reached the
stream is left Exhausted, and every read on an Exhausted stream again
returns success with zero bytes and leaves the stream Exhausted (idempotent
end of stream). -/
theorem stream_read_zero_iff_exhausted (s : StreamState) (capacity avail : Nat)
    (hs : s ≠ .Errored) (hcap : 0 < capacity) :
    (extractous_stream_read s capacity avail).1 = ERR_OK ∧
    ((extractous_stream_read s capacity avail).2.1.length = 0 ↔ streamAtEnd s = true) ∧
    (streamAtEnd s = true →
      (extractous_stream_read s capacity avail).2.2 = StreamState.Exhausted) ∧
    (∀ capacity2 avail2,
      extractous_stream_read StreamState.Exhausted capacity2 avail2 =
        (ERR_OK, [], StreamState.Exhausted)) := by
  refine ⟨stream_read_ok s capacity avail hs, ?_, ?_, fun _ _ => rfl⟩
  · cases s with
    | Errored => exact absurd rfl hs
    | Exhausted => simp [extractous_stream_read, streamAtEnd]
    | Open rem =>
      by_cases h : rem = []
      · simp [extractous_stream_read, h, streamAtEnd]
      · have hlen : 0 < rem.length := List.length_pos.mpr h
        have hn0 : min (min capacity (max 1 avail)) rem.length ≠ 0 := by omega
        simp [extractous_stream_read, if_neg h, streamAtEnd, List.isEmpty_iff,
          List.length_eq_zero, List.take_eq_nil_iff, hn0, h]
        omega
  · intro hend
    cases s with
    | Errored => exact absurd rfl hs
    | Exhausted => rfl
    | Open rem =>
      have hre : rem = [] := by simpa [streamAtEnd, List.isEmpty_iff] using hend
      simp [extractous_stream_read, hre]

theorem stream_read_zero_iff_exhausted_witness :
    (StreamState.Open [5] ≠ StreamState.Errored) ∧ 0 < 4 ∧
    ((extractous_stream_read (StreamState.Open [5]) 4 4).1 = ERR_OK ∧
      ((extractous_stream_read (StreamState.Open [5]) 4 4).2.1.length = 0 ↔
        streamAtEnd (StreamState.Open [5]) = true) ∧
      (streamAtEnd (StreamState.Open [5]) = true →
        (extractous_stream_read (StreamState.Open [5]) 4 4).2.2 = StreamState.Exhausted) ∧
      (∀ capacity2 avail2,
        extractous_stream_read StreamState.Exhausted capacity2 avail2 =
          (ERR_OK, [], StreamState.Exhausted))) :=
  ⟨by decide, by decide,
   stream_read_zero_iff_exhausted (StreamState.Open [5]) 4 4 (by decide) (by decide)⟩

/-- Claim C6: read-exact on a non-errored stream accumulates bytes across as
many underlying reads as needed and reports success; it collects exactly the
requested count unless the stream runs out first, in which case it reports
the number actually collected — the requested count capped by the bytes the
stream still held — still with success status. -/
theorem stream_read_exact_accumulates (s : StreamState) (count : Nat) (avails : List Nat)
    (hs : s ≠ .Errored) :
    (extractous_stream_read_exact s count avails).1 = ERR_OK ∧
    (extractous_stream_read_exact s count avails).2.1 = (streamRemaining s).take count ∧
    (extractous_stream_read_exact s count avails).2.1.length =
      min count (streamRemaining s).length := by
  obtain ⟨h1, h2, h3, h4⟩ := stream_read_exact_spec count s avails hs
  refine ⟨h1, h2, ?_⟩
  rw [h2, List.length_take]

theorem stream_read_exact_accumulates_witness :
    (StreamState.Open [1, 2, 3] ≠ StreamState.Errored) ∧
    ((extractous_stream_read_exact (StreamState.Open [1, 2, 3]) 5 []).1 = ERR_OK ∧
      (extractous_stream_read_exact (StreamState.Open [1, 2, 3]) 5 []).2.1 =
        (streamRemaining (StreamState.Open [1, 2, 3])).take 5 ∧
      (extractous_stream_read_exact (StreamState.Open [1, 2, 3]) 5 []).2.1.length =
        min 5 (streamRemaining (StreamState.Open [1, 2, 3])).length) :=
  ⟨by decide, stream_read_exact_accumulates (StreamState.Open [1, 2, 3]) 5 [] (by decide)⟩

/-- Claim C7: for the same source, configuration and backend behaviour, when
the to-string entry point returns a content string and the to-stream entry
point returns a stream reader, the concatenation of all chunks any sequence
of read and read-exact calls obtains from that stream — provided the
sequence drains the stream — equals the to-string content: streaming and
single-shot extraction deliver the same bytes, and no byte is ever delivered
twice. -/
theorem stream_chunks_concat_equals_string_result
    (backend : Backend) (ex : CExtractor) (src : SourceArg) (ops : List StreamOp)
    (content : List Nat) (reader : CStreamReader)
    (meta1 meta2 : Option CMetadata) (code2 : Int)
    (h1 : extractous_extract backend .toStringMode (some ex) (some src) true =
      (ERR_OK, some (.strContent content), meta1))
    (h2 : extractous_extract backend .toStreamMode (some ex) (some src) true =
      (code2, some (.streamContent reader), meta2))
    (hdrain : streamRemaining (runStreamOps reader.state ops).2 = []) :
    (runStreamOps reader.state ops).1 = content := by
  obtain ⟨rstate⟩ := reader
  cases hb : backend src ex with
  | error k =>
    simp [extractous_extract, hb] at h1
  | ok p =>
    obtain ⟨text, meta⟩ := p
    simp only [extractous_extract, hb] at h1 h2
    have hcontent : text.take ex.maxLength = content := by
      have := congrArg (fun t => t.2.1) h1
      simpa using this
    have hstate : rstate = StreamState.Open (text.take ex.maxLength) := by
      have := congrArg (fun t => t.2.1) h2
      simp only [Option.some.injEq] at this
      cases this
      rfl
    subst hstate
    rw [hcontent] at hdrain ⊢
    have hinv := runStreamOps_chunks_append ops (StreamState.Open content)
      (fun hcontra => StreamState.noConfusion hcontra)
    have hfin := hinv.1
    rw [hdrain, List.append_nil] at hfin
    simpa [streamRemaining] using hfin

/-- A concrete backend for the streaming-equivalence witness. -/
def wBackend : Backend := fun _ _ => Except.ok ([7, 8], ⟨["k"], ["v"], 1⟩)

/-- A concrete extractor for the streaming-equivalence witness. -/
def wExtractor : CExtractor := ⟨4, CHARSET_UTF_8, false, none, false, false⟩

theorem stream_chunks_concat_equals_string_result_witness :
    (runStreamOps (CStreamReader.mk (StreamState.Open [7, 8])).state
      [StreamOp.readChunk 16 16]).1 = [7, 8] :=
  stream_chunks_concat_equals_string_result wBackend wExtractor (.fromPath "a.txt")
    [StreamOp.readChunk 16 16] [7, 8] (CStreamReader.mk (StreamState.Open [7, 8]))
    (some ⟨["k"], ["v"], 1⟩) (some ⟨["k"], ["v"], 1⟩) ERR_OK rfl rfl rfl

/-- Claim C8: the enum-typed setters (PDF OCR strategy, extractor charset
encoding) given a value outside the declared set consume the prior handle
and return an invalid (null) result; they never return a handle carrying a
clamped or substituted value. -/
theorem invalid_enum_setter_yields_null (c : CPdfParserConfig) (e : CExtractor)
    (strategy encoding : Int)
    (hstrat : strategy ∉ pdfOcrStrategyValues) (henc : encoding ∉ charsetValues) :
    extractous_pdf_config_set_ocr_strategy (some c) strategy = none ∧
    extractous_extractor_set_encoding (some e) encoding = none := by
  constructor
  · simp [extractous_pdf_config_set_ocr_strategy, hstrat]
  · simp [extractous_extractor_set_encoding, henc]

theorem invalid_enum_setter_yields_null_witness :
    extractous_pdf_config_set_ocr_strategy (some extractous_pdf_config_new) 999 = none ∧
    extractous_extractor_set_encoding (some extractous_extractor_new) 999 = none :=
  invalid_enum_setter_yields_null extractous_pdf_config_new extractous_extractor_new
    999 999 (by decide) (by decide)

/-- Claim C9: every extraction entry point (any source kind, any output
mode, any backend) returns the null-pointer error and produces no output
when called with a null extractor handle, with a null source argument, or
with null output pointers. -/
theorem extract_rejects_null_arguments (backend : Backend) (mode : OutputMode) :
    (∀ (source : Option SourceArg) (outPtrsValid : Bool),
      extractous_extract backend mode none source outPtrsValid =
        (ERR_NULL_POINTER, none, none)) ∧
    (∀ (ex : CExtractor) (outPtrsValid : Bool),
      extractous_extract backend mode (some ex) none outPtrsValid =
        (ERR_NULL_POINTER, none, none)) ∧
    (∀ (ex : CExtractor) (src : SourceArg),
      extractous_extract backend mode (some ex) (some src) false =
        (ERR_NULL_POINTER, none, none)) :=
  ⟨fun _ _ => rfl, fun _ _ => rfl, fun _ _ => rfl⟩

/-- Claim C10: the error-message function returns a non-empty human-readable
string for every defined error code, the success code included. -/
theorem error_message_nonempty (code : Int) (hc : code ∈ definedErrorCodes) :
    extractous_error_message code ≠ "" := by
  fin_cases hc <;> decide

theorem error_message_nonempty_witness :
    extractous_error_message ERR_OK ≠ "" :=
  error_message_nonempty ERR_OK (by decide)
